import Mathlib

/-!
Shallow embedding of the `pfdsigner` React component (src/src/App.jsx and
src/unnamed/part_000; the two files define the same `App` component).

The component keeps four pieces of state (`pdfFile`, `fileName`,
`signedPdfUrl`, `errorMsg`) and exposes three event handlers:
`handleFileChange`, `clearSignature` and `processPdf`.  The heavy lifting is
delegated to two external libraries, `pdf-lib` (document parse / embed /
draw / serialize) and `react-signature-canvas` (the drawing surface); those
are modelled below from the spec's description of their narrow interfaces
(spec sections 4.2 and 4.3), while the handlers themselves are translated
directly from the source.
-/

namespace PdfSigner

/-- An image drawn onto a page: the options object passed to
`firstPage.drawImage` in `processPdf` (position `x`,`y` and display
dimensions `width`,`height`, in page coordinate units, origin bottom-left). -/
structure PlacedImage where
  x : ℚ
  y : ℚ
  width : ℚ
  height : ℚ
deriving Repr, DecidableEq

/-- Modelled from the spec: a page of a parsed PDF document, with its
native width and height (spec section 4.3 step 4) and the images drawn on
it so far. -/
structure Page where
  width : ℚ
  height : ℚ
  images : List PlacedImage
deriving Repr, DecidableEq

/-- Modelled from the spec: the structured document object produced by
parsing a PDF byte buffer (spec section 4.3 step 1): a list of pages. -/
structure PdfDoc where
  pages : List Page
deriving Repr, DecidableEq

/-- Modelled from the spec: a PDF byte buffer, abstracted by the document
it encodes.  `valid d` stands for any byte buffer that `PDFDocument.load`
parses to the document `d`; `malformed` for bytes the parser rejects
(spec section 4.3 step 1, `ParseFailed`). -/
inductive PdfBytes where
  | valid (doc : PdfDoc)
  | malformed
deriving Repr, DecidableEq

/-- Modelled from the spec: a PNG byte buffer, abstracted by the native
pixel dimensions of the raster it encodes; `corrupt` stands for bytes the
embed step rejects (spec section 4.3 step 2 and section 7). -/
inductive PngBytes where
  | valid (width height : ℚ)
  | corrupt
deriving Repr, DecidableEq

/-- Modelled from the spec: an embeddable image resource registered with
the document, carrying the raster's native pixel dimensions. -/
structure EmbeddedImage where
  width : ℚ
  height : ℚ
deriving Repr, DecidableEq

/-- Modelled from the spec: display dimensions returned by scaling an
embedded image. -/
structure ScaledDims where
  width : ℚ
  height : ℚ
deriving Repr, DecidableEq

/-- Modelled from the spec: `PDFDocument.load` parses a byte buffer into a
document object, failing on malformed bytes (spec section 4.3 step 1). -/
def PDFDocument.load : PdfBytes → Except Unit PdfDoc
  | .valid d => .ok d
  | .malformed => .error ()

/-- Modelled from the spec: `pdfDoc.save()` re-serializes the full document
to a byte buffer encoding exactly that document (spec section 4.3 step 8). -/
def PdfDoc.save (d : PdfDoc) : PdfBytes :=
  .valid d

/-- Modelled from the spec: `pdfDoc.embedPng(bytes)` decodes a PNG and
registers it as an embeddable image with its native pixel dimensions,
failing on corrupt bytes (spec section 4.3 step 2). -/
def PdfDoc.embedPng : PngBytes → Except Unit EmbeddedImage
  | .valid w h => .ok { width := w, height := h }
  | .corrupt => .error ()

/-- Modelled from the spec: `pdfDoc.getPages()` returns the document's
pages. -/
def PdfDoc.getPages (d : PdfDoc) : List Page :=
  d.pages

/-- Modelled from the spec: `image.scale(factor)` multiplies the image's
native pixel dimensions by the factor (spec section 4.3 step 5). -/
def EmbeddedImage.scale (img : EmbeddedImage) (factor : ℚ) : ScaledDims :=
  { width := img.width * factor, height := img.height * factor }

/-- Modelled from the spec: `page.drawImage(image, opts)` draws the image
on the page at the given position and display dimensions (spec section 4.3
step 7). -/
def Page.drawImage (p : Page) (opts : PlacedImage) : Page :=
  { p with images := p.images ++ [opts] }

/-- Modelled from the spec: the drawing surface (`react-signature-canvas`),
owning mutable stroke state; each stroke is a list of points (spec
section 4.2, `SignatureStrokes`). -/
structure SigCanvas where
  strokes : List (List (ℚ × ℚ))
deriving Repr, DecidableEq

/-- Modelled from the spec: the drawing surface's `clear()` operation
discards all stroke state; it always succeeds (spec section 4.2). -/
def SigCanvas.clear (_ : SigCanvas) : SigCanvas :=
  { strokes := [] }

/-- Modelled from the spec: the drawing surface's `isEmpty()` reports
whether any ink has been drawn (spec section 4.2). -/
def SigCanvas.isEmpty (c : SigCanvas) : Bool :=
  c.strokes.isEmpty

/-- A selected file as delivered by the file input: its name, its reported
MIME type (`file.type` in the source) and its contents. -/
structure JsFile where
  name : String
  mimeType : String
  content : PdfBytes
deriving Repr, DecidableEq

/-- The component's state: `pdfFile` (byte buffer of the uploaded PDF, or
none), `fileName`, `signedPdfUrl` (the object URL of the signed result,
modelled by the byte buffer the URL resolves to, or none) and `errorMsg`. -/
structure AppState where
  pdfFile : Option PdfBytes
  fileName : String
  signedPdfUrl : Option PdfBytes
  errorMsg : String
deriving Repr, DecidableEq

/-- The initial state: `useState(null)`, `useState("")`, `useState(null)`,
`useState("")`. -/
def initialState : AppState :=
  { pdfFile := none, fileName := "", signedPdfUrl := none, errorMsg := "" }

/-- `handleFileChange`, translated from the source.  `file?` is
`e.target.files[0]` (`none` when no file was selected).  On a file whose
reported MIME type is exactly `application/pdf`, once the asynchronous read
completes the handler stores the bytes and name, resets the download link
and clears the error; otherwise (including no file at all) it only sets the
error message. -/
def handleFileChange (file? : Option JsFile) (s : AppState) : AppState :=
  match file? with
  | some file =>
    if file.mimeType = "application/pdf" then
      { s with pdfFile := some file.content, fileName := file.name,
               signedPdfUrl := none, errorMsg := "" }
    else
      { s with errorMsg := "Please upload a valid PDF file." }
  | none =>
    { s with errorMsg := "Please upload a valid PDF file." }

/-- `clearSignature`, translated from the source: delegates to the drawing
surface's `clear()`. -/
def clearSignature (c : SigCanvas) : SigCanvas :=
  c.clear

/-- The body of the `try` block of `processPdf`, translated from the
source: load the PDF, embed the signature PNG, take the first page
(`pages[0]` of a zero-page document is `undefined`, so the subsequent
`getSize()` call throws, landing in the `catch`), scale the image by `0.5`,
draw it at `x = width - sigDims.width - 20`, `y = 20`, and save.  The
returned buffer is what the created object URL resolves to. -/
def composePdf (pdfFile : PdfBytes) (signatureImageBytes : PngBytes) :
    Except Unit PdfBytes := do
  let pdfDoc ← PDFDocument.load pdfFile
  let signatureImage ← PdfDoc.embedPng signatureImageBytes
  match pdfDoc.getPages with
  | [] => .error ()
  | firstPage :: rest =>
    let width := firstPage.width
    let sigDims := signatureImage.scale (1/2)
    let signedFirst := firstPage.drawImage
      { x := width - sigDims.width - 20, y := 20,
        width := sigDims.width, height := sigDims.height }
    .ok (PdfDoc.save { pages := signedFirst :: rest })

/-- `processPdf`, translated from the source.  `exportTrimmedRaster` models
the opaque `getTrimmedCanvas().toDataURL('image/png')` + `fetch` export of
the drawing surface (spec section 4.2).  Guards: no document, then empty
signature; then the `try` block, whose success sets the download link and
clears the error and whose `catch` sets the generic error message. -/
def processPdf (exportTrimmedRaster : SigCanvas → PngBytes)
    (sigCanvas : SigCanvas) (s : AppState) : AppState :=
  match s.pdfFile with
  | none => { s with errorMsg := "Please upload a PDF first." }
  | some pdfFile =>
    if sigCanvas.isEmpty then
      { s with errorMsg := "Please draw a signature first." }
    else
      match composePdf pdfFile (exportTrimmedRaster sigCanvas) with
      | .ok url => { s with signedPdfUrl := some url, errorMsg := "" }
      | .error _ =>
        { s with errorMsg := "An error occurred while creating the PDF." }

/-- The render condition for the error banner: `{errorMsg && ...}` (a
non-empty string is truthy). -/
def showsError (s : AppState) : Bool :=
  !(s.errorMsg == "")

/-- The render condition for the success box with the download link:
`{signedPdfUrl && ...}` (a non-null URL is truthy). -/
def showsDownload (s : AppState) : Bool :=
  s.signedPdfUrl.isSome

/-!
Theorems for the claims.
-/

/-- Claim C1, counterexample: `processPdf` does not reset `signedPdfUrl`
and `errorMsg` at the start of an attempt.  Starting from a state with a
loaded document and a download link from an earlier successful sign, an
attempt with an empty signature pad leaves the link in place while setting
the error message, so both are non-empty as the outcome of the same
attempt. -/
theorem processPdf_reset_counterexample :
    (processPdf (fun _ => PngBytes.corrupt) ⟨[]⟩
        { pdfFile := some (PdfBytes.valid ⟨[⟨612, 792, []⟩]⟩),
          fileName := "contract.pdf",
          signedPdfUrl := some (PdfBytes.valid ⟨[⟨612, 792, []⟩]⟩),
          errorMsg := "" }).errorMsg = "Please draw a signature first." ∧
    (processPdf (fun _ => PngBytes.corrupt) ⟨[]⟩
        { pdfFile := some (PdfBytes.valid ⟨[⟨612, 792, []⟩]⟩),
          fileName := "contract.pdf",
          signedPdfUrl := some (PdfBytes.valid ⟨[⟨612, 792, []⟩]⟩),
          errorMsg := "" }).signedPdfUrl =
      some (PdfBytes.valid ⟨[⟨612, 792, []⟩]⟩) :=
  ⟨rfl, rfl⟩

/-- Claim C1, amended: every `processPdf` invocation sets at most one of
the two outputs itself — it either only writes `errorMsg` (leaving
`signedPdfUrl` whatever it was, possibly non-empty from an earlier
attempt), or it sets `signedPdfUrl` and clears `errorMsg`; it does not
reset both at the start. -/
theorem processPdf_sets_at_most_one (ex : SigCanvas → PngBytes)
    (sigCanvas : SigCanvas) (s : AppState) :
    (∃ m, processPdf ex sigCanvas s = { s with errorMsg := m }) ∨
    (∃ u, processPdf ex sigCanvas s =
      { s with signedPdfUrl := some u, errorMsg := "" }) := by
  rcases hp : s.pdfFile with _ | f
  · exact Or.inl ⟨"Please upload a PDF first.", by simp [processPdf, hp]⟩
  · rcases hc : sigCanvas.isEmpty
    · rcases hcp : composePdf f (ex sigCanvas) with e | u
      · exact Or.inl ⟨"An error occurred while creating the PDF.",
          by simp [processPdf, hp, hc, hcp]⟩
      · exact Or.inr ⟨u, by simp [processPdf, hp, hc, hcp]⟩
    · exact Or.inl ⟨"Please draw a signature first.",
        by simp [processPdf, hp, hc]⟩

/-- Claim C2: the composition step draws the image with display
dimensions exactly half the raster's native pixel dimensions, at
`x = W - 0.5 * Rw - 20`, `y = 20`, with no bounds-clamping (the equation
holds for every `W` and `Rw`, negative `x` included); in particular
`W = 612`, `Rw = 300` gives `x = 442`, `y = 20`. -/
theorem composePdf_geometry (W H Rw Rh : ℚ) (imgs : List PlacedImage)
    (rest : List Page) :
    composePdf (PdfBytes.valid ⟨⟨W, H, imgs⟩ :: rest⟩) (PngBytes.valid Rw Rh) =
      Except.ok (PdfBytes.valid ⟨⟨W, H, imgs ++
        [⟨W - (1/2) * Rw - 20, 20, (1/2) * Rw, (1/2) * Rh⟩]⟩ :: rest⟩) ∧
    composePdf (PdfBytes.valid ⟨[⟨612, 792, []⟩]⟩) (PngBytes.valid 300 100) =
      Except.ok (PdfBytes.valid ⟨[⟨612, 792, [⟨442, 20, 150, 50⟩]⟩]⟩) := by
  constructor
  · have h1 : (1/2 : ℚ) * Rw = Rw * (1/2) := mul_comm _ _
    have h2 : (1/2 : ℚ) * Rh = Rh * (1/2) := mul_comm _ _
    rw [h1, h2]
    rfl
  · show Except.ok _ = _
    norm_num [composePdf, PDFDocument.load, PdfDoc.embedPng, PdfDoc.getPages,
      EmbeddedImage.scale, Page.drawImage, PdfDoc.save]

/-- Claim C3: when the guards pass but the composition (the `try` block)
fails at any step, `processPdf` catches the failure and sets `errorMsg`
to exactly the generic message, changing nothing else — in particular no
new `signedPdfUrl` is produced by that attempt. -/
theorem processPdf_composition_failure (ex : SigCanvas → PngBytes)
    (sigCanvas : SigCanvas) (s : AppState) (f : PdfBytes)
    (hf : s.pdfFile = some f) (hne : sigCanvas.isEmpty = false)
    (hfail : composePdf f (ex sigCanvas) = Except.error ()) :
    processPdf ex sigCanvas s =
      { s with errorMsg := "An error occurred while creating the PDF." } := by
  simp [processPdf, hf, hne, hfail]

/-- Witness for C3: a loaded one-page document, a non-empty pad whose
export is a corrupt PNG; the embed step fails and the attempt ends with
the generic error message and no other change. -/
theorem processPdf_composition_failure_witness :
    SigCanvas.isEmpty ⟨[[(0, 0)]]⟩ = false ∧
    composePdf (PdfBytes.valid ⟨[⟨612, 792, []⟩]⟩) PngBytes.corrupt =
      Except.error () ∧
    processPdf (fun _ => PngBytes.corrupt) ⟨[[(0, 0)]]⟩
        { pdfFile := some (PdfBytes.valid ⟨[⟨612, 792, []⟩]⟩),
          fileName := "contract.pdf", signedPdfUrl := none, errorMsg := "" } =
      { pdfFile := some (PdfBytes.valid ⟨[⟨612, 792, []⟩]⟩),
        fileName := "contract.pdf", signedPdfUrl := none,
        errorMsg := "An error occurred while creating the PDF." } :=
  ⟨rfl, rfl,
    processPdf_composition_failure (fun _ => PngBytes.corrupt) ⟨[[(0, 0)]]⟩ _
      (PdfBytes.valid ⟨[⟨612, 792, []⟩]⟩) rfl rfl rfl⟩

/-- Claim C4: with a document loaded but an empty drawing surface,
`processPdf` stops at the guard with the message
`Please draw a signature first.` and mutates nothing else; the result is
the same for every possible export/composition behaviour (the quantified
`ex`), so no parse, embed, draw or serialize step is ever reached. -/
theorem processPdf_empty_signature_guard (ex : SigCanvas → PngBytes)
    (sigCanvas : SigCanvas) (s : AppState) (f : PdfBytes)
    (hf : s.pdfFile = some f) (he : sigCanvas.isEmpty = true) :
    processPdf ex sigCanvas s =
      { s with errorMsg := "Please draw a signature first." } := by
  simp [processPdf, hf, he]

/-- Witness for C4: a loaded document and a stroke-free pad. -/
theorem processPdf_empty_signature_guard_witness :
    SigCanvas.isEmpty ⟨[]⟩ = true ∧
    processPdf (fun _ => PngBytes.corrupt) ⟨[]⟩
        { pdfFile := some (PdfBytes.valid ⟨[⟨612, 792, []⟩]⟩),
          fileName := "contract.pdf", signedPdfUrl := none, errorMsg := "" } =
      { pdfFile := some (PdfBytes.valid ⟨[⟨612, 792, []⟩]⟩),
        fileName := "contract.pdf", signedPdfUrl := none,
        errorMsg := "Please draw a signature first." } :=
  ⟨rfl,
    processPdf_empty_signature_guard (fun _ => PngBytes.corrupt) ⟨[]⟩ _
      (PdfBytes.valid ⟨[⟨612, 792, []⟩]⟩) rfl rfl⟩

/-- Claim C5: selecting a file whose reported MIME type is exactly
`application/pdf` (once the read completes) replaces the stored bytes and
filename, resets the download link and clears the error — whatever the
previous state was, including one right after a successful sign. -/
theorem handleFileChange_valid_pdf (file : JsFile) (s : AppState)
    (h : file.mimeType = "application/pdf") :
    handleFileChange (some file) s =
      { pdfFile := some file.content, fileName := file.name,
        signedPdfUrl := none, errorMsg := "" } := by
  simp [handleFileChange, h]

/-- Witness for C5: re-selecting a valid PDF right after a successful
sign clears the prior download link and error. -/
theorem handleFileChange_valid_pdf_witness :
    JsFile.mimeType ⟨"new.pdf", "application/pdf",
      PdfBytes.valid ⟨[⟨595, 842, []⟩]⟩⟩ = "application/pdf" ∧
    handleFileChange
        (some ⟨"new.pdf", "application/pdf", PdfBytes.valid ⟨[⟨595, 842, []⟩]⟩⟩)
        { pdfFile := some (PdfBytes.valid ⟨[⟨612, 792, []⟩]⟩),
          fileName := "old.pdf",
          signedPdfUrl :=
            some (PdfBytes.valid ⟨[⟨612, 792, [⟨442, 20, 150, 50⟩]⟩]⟩),
          errorMsg := "" } =
      { pdfFile := some (PdfBytes.valid ⟨[⟨595, 842, []⟩]⟩),
        fileName := "new.pdf", signedPdfUrl := none, errorMsg := "" } :=
  ⟨rfl,
    handleFileChange_valid_pdf
      ⟨"new.pdf", "application/pdf", PdfBytes.valid ⟨[⟨595, 842, []⟩]⟩⟩ _ rfl⟩

/-- Claim C6: with a document already loaded, selecting a file whose MIME
type is not `application/pdf` leaves the stored bytes and filename
unchanged and only sets the error message
`Please upload a valid PDF file.`. -/
theorem handleFileChange_invalid_keeps_document (file : JsFile)
    (s : AppState) (d : PdfBytes) (hd : s.pdfFile = some d)
    (h : ¬ file.mimeType = "application/pdf") :
    handleFileChange (some file) s =
      { s with errorMsg := "Please upload a valid PDF file." } ∧
    (handleFileChange (some file) s).pdfFile = some d ∧
    (handleFileChange (some file) s).fileName = s.fileName := by
  refine ⟨?_, ?_, ?_⟩ <;> simp [handleFileChange, h, hd]

/-- Witness for C6: a PNG selected while a valid document is loaded. -/
theorem handleFileChange_invalid_keeps_document_witness :
    ¬ JsFile.mimeType ⟨"photo.png", "image/png", PdfBytes.malformed⟩ =
      "application/pdf" ∧
    handleFileChange (some ⟨"photo.png", "image/png", PdfBytes.malformed⟩)
        { pdfFile := some (PdfBytes.valid ⟨[⟨612, 792, []⟩]⟩),
          fileName := "contract.pdf", signedPdfUrl := none, errorMsg := "" } =
      { pdfFile := some (PdfBytes.valid ⟨[⟨612, 792, []⟩]⟩),
        fileName := "contract.pdf", signedPdfUrl := none,
        errorMsg := "Please upload a valid PDF file." } :=
  ⟨by decide,
    (handleFileChange_invalid_keeps_document
      ⟨"photo.png", "image/png", PdfBytes.malformed⟩ _
      (PdfBytes.valid ⟨[⟨612, 792, []⟩]⟩) rfl (by decide)).1⟩

/-- Claim C7, counterexample: a byte buffer that parses to a zero-page
document is a valid (parseable) PDF on which signing fails — `pages[0]`
is undefined and the attempt lands in the `catch` — so the claim does
not hold for every parseable buffer. -/
theorem composePdf_zero_page_counterexample :
    PDFDocument.load (PdfBytes.valid ⟨[]⟩) = Except.ok ⟨[]⟩ ∧
    composePdf (PdfBytes.valid ⟨[]⟩) (PngBytes.valid 300 100) =
      Except.error () :=
  ⟨rfl, rfl⟩

/-- Claim C7, amended: for every parseable PDF with at least one page and
every non-empty signature raster, composition succeeds; the output is
itself parseable, has the same page count, the image is drawn onto only
the first page, and all other pages are serialized unchanged. -/
theorem composePdf_success_page_count (p : Page) (rest : List Page)
    (Rw Rh : ℚ) :
    ∃ out : PdfDoc,
      composePdf (PdfBytes.valid ⟨p :: rest⟩) (PngBytes.valid Rw Rh) =
        Except.ok (PdfDoc.save out) ∧
      PDFDocument.load (PdfDoc.save out) = Except.ok out ∧
      out.pages.length = (p :: rest).length ∧
      out.pages.tail = rest ∧
      out.pages.head? = some (p.drawImage
        { x := p.width - Rw * (1/2) - 20, y := 20,
          width := Rw * (1/2), height := Rh * (1/2) }) :=
  ⟨PdfDoc.mk (p.drawImage (PlacedImage.mk (p.width - Rw * (1/2) - 20) 20
      (Rw * (1/2)) (Rh * (1/2))) :: rest),
    rfl, rfl, rfl, rfl, rfl⟩

/-- Claim C8: selecting an invalid file changes only `errorMsg`; the
download link survives, so the success box (with the prior download
handle) and the error banner are rendered simultaneously. -/
theorem handleFileChange_invalid_keeps_download (file : JsFile)
    (s : AppState) (u : PdfBytes) (hu : s.signedPdfUrl = some u)
    (h : ¬ file.mimeType = "application/pdf") :
    (handleFileChange (some file) s).signedPdfUrl = some u ∧
    (handleFileChange (some file) s).pdfFile = s.pdfFile ∧
    (handleFileChange (some file) s).fileName = s.fileName ∧
    (handleFileChange (some file) s).errorMsg =
      "Please upload a valid PDF file." ∧
    showsDownload (handleFileChange (some file) s) = true ∧
    showsError (handleFileChange (some file) s) = true := by
  refine ⟨?_, ?_, ?_, ?_, ?_, ?_⟩ <;>
    simp [handleFileChange, h, hu, showsDownload, showsError]

/-- Witness for C8: after a successful sign, selecting a PNG leaves the
prior download handle exposed next to the error banner. -/
theorem handleFileChange_invalid_keeps_download_witness :
    AppState.signedPdfUrl
      { pdfFile := some (PdfBytes.valid ⟨[⟨612, 792, []⟩]⟩),
        fileName := "contract.pdf",
        signedPdfUrl :=
          some (PdfBytes.valid ⟨[⟨612, 792, [⟨442, 20, 150, 50⟩]⟩]⟩),
        errorMsg := "" } =
      some (PdfBytes.valid ⟨[⟨612, 792, [⟨442, 20, 150, 50⟩]⟩]⟩) ∧
    ¬ JsFile.mimeType ⟨"photo.png", "image/png", PdfBytes.malformed⟩ =
      "application/pdf" ∧
    ((handleFileChange (some ⟨"photo.png", "image/png", PdfBytes.malformed⟩)
        { pdfFile := some (PdfBytes.valid ⟨[⟨612, 792, []⟩]⟩),
          fileName := "contract.pdf",
          signedPdfUrl :=
            some (PdfBytes.valid ⟨[⟨612, 792, [⟨442, 20, 150, 50⟩]⟩]⟩),
          errorMsg := "" }).signedPdfUrl =
      some (PdfBytes.valid ⟨[⟨612, 792, [⟨442, 20, 150, 50⟩]⟩]⟩) ∧
    (handleFileChange (some ⟨"photo.png", "image/png", PdfBytes.malformed⟩)
        { pdfFile := some (PdfBytes.valid ⟨[⟨612, 792, []⟩]⟩),
          fileName := "contract.pdf",
          signedPdfUrl :=
            some (PdfBytes.valid ⟨[⟨612, 792, [⟨442, 20, 150, 50⟩]⟩]⟩),
          errorMsg := "" }).pdfFile =
      some (PdfBytes.valid ⟨[⟨612, 792, []⟩]⟩) ∧
    (handleFileChange (some ⟨"photo.png", "image/png", PdfBytes.malformed⟩)
        { pdfFile := some (PdfBytes.valid ⟨[⟨612, 792, []⟩]⟩),
          fileName := "contract.pdf",
          signedPdfUrl :=
            some (PdfBytes.valid ⟨[⟨612, 792, [⟨442, 20, 150, 50⟩]⟩]⟩),
          errorMsg := "" }).fileName = "contract.pdf" ∧
    (handleFileChange (some ⟨"photo.png", "image/png", PdfBytes.malformed⟩)
        { pdfFile := some (PdfBytes.valid ⟨[⟨612, 792, []⟩]⟩),
          fileName := "contract.pdf",
          signedPdfUrl :=
            some (PdfBytes.valid ⟨[⟨612, 792, [⟨442, 20, 150, 50⟩]⟩]⟩),
          errorMsg := "" }).errorMsg = "Please upload a valid PDF file." ∧
    showsDownload (handleFileChange
        (some ⟨"photo.png", "image/png", PdfBytes.malformed⟩)
        { pdfFile := some (PdfBytes.valid ⟨[⟨612, 792, []⟩]⟩),
          fileName := "contract.pdf",
          signedPdfUrl :=
            some (PdfBytes.valid ⟨[⟨612, 792, [⟨442, 20, 150, 50⟩]⟩]⟩),
          errorMsg := "" }) = true ∧
    showsError (handleFileChange
        (some ⟨"photo.png", "image/png", PdfBytes.malformed⟩)
        { pdfFile := some (PdfBytes.valid ⟨[⟨612, 792, []⟩]⟩),
          fileName := "contract.pdf",
          signedPdfUrl :=
            some (PdfBytes.valid ⟨[⟨612, 792, [⟨442, 20, 150, 50⟩]⟩]⟩),
          errorMsg := "" }) = true) :=
  ⟨rfl, by decide,
    handleFileChange_invalid_keeps_download
      ⟨"photo.png", "image/png", PdfBytes.malformed⟩ _
      (PdfBytes.valid ⟨[⟨612, 792, [⟨442, 20, 150, 50⟩]⟩]⟩) rfl (by decide)⟩

/-- Claim C9: when the change event fires with no file selected at all
(`e.target.files[0]` is undefined), the guard `file && ...` takes the
invalid branch: the error message is set even though nothing was chosen,
and document, filename and download link are unchanged. -/
theorem handleFileChange_no_file (s : AppState) :
    handleFileChange none s =
      { s with errorMsg := "Please upload a valid PDF file." } :=
  rfl

/-- Claim C10: clearing the signature pad twice in a row is idempotent
with respect to emptiness — `isEmpty` is true after the first clear and
still true after the second. -/
theorem clearSignature_twice_empty (c : SigCanvas) :
    (clearSignature c).isEmpty = true ∧
    (clearSignature (clearSignature c)).isEmpty = true :=
  ⟨rfl, rfl⟩

end PdfSigner
